import Mathlib

/-!
Verification development for the task-and-budget tracking client.

The client screens are embedded shallowly:

* Remote rows (`Task`, `BudgetItem`) are Lean structures; numeric row
  fields are rationals, with `Option ℚ` standing for a JS number that may
  be `NaN` (`none` = `NaN`).
* The JS string-to-number conversions `parseFloat` and `Number` used by the
  screens are embedded over ℚ on the decimal-literal grammar (optional
  sign, digits, fraction, exponent); non-finite results and non-decimal
  radix literals are outside the model, as no screen feeds them.
* Each screen handler becomes a pure function from its inputs (form state,
  fetched row, success/failure of the remote call) to the observable
  effect: which payload was sent, which message was shown, whether and
  when navigation happened.
* Times are epoch milliseconds (`Int`); `getDaysRemaining` embeds
  `Math.ceil((deadline - now) / 86400000)` as an integer ceiling
  division, proved equal to the mathematical ceiling below.
-/

namespace App

/-! ### JS numeric string parsing over ℚ -/

/-- Whitespace characters skipped by the JS numeric conversions
(space, tab, line feed, carriage return, vertical tab, form feed). -/
def isJsWhitespace (c : Char) : Bool :=
  c = ' ' || c = '\t' || c = '\n' || c = '\r' || c.toNat = 11 || c.toNat = 12

/-- Value of a digit string, most significant first. -/
def digitsToNat (ds : List Char) : Nat :=
  ds.foldl (fun a c => 10 * a + (c.toNat - 48)) 0

/-- Parse the longest unsigned decimal-literal prefix of `cs`:
digits, an optional fraction, and an optional exponent part.
Returns the value and the unconsumed rest; `none` when no digit is found. -/
def parseUnsignedDecimal (cs : List Char) : Option (ℚ × List Char) :=
  let intPart := cs.takeWhile Char.isDigit
  let rest1 := cs.dropWhile Char.isDigit
  let fracView : List Char × List Char :=
    match rest1 with
    | '.' :: t => (t.takeWhile Char.isDigit, t.dropWhile Char.isDigit)
    | _ => ([], rest1)
  let fracPart := fracView.1
  let rest2 := if rest1.head? = some '.' then fracView.2 else rest1
  if intPart.isEmpty && fracPart.isEmpty then none
  else
    let mantissa : ℚ :=
      (digitsToNat intPart : ℚ) + (digitsToNat fracPart : ℚ) / (10 : ℚ) ^ fracPart.length
    match rest2 with
    | e :: t =>
      if e = 'e' || e = 'E' then
        let signedTail : Bool × List Char :=
          match t with
          | '+' :: u => (false, u)
          | '-' :: u => (true, u)
          | _ => (false, t)
        let expDigits := signedTail.2.takeWhile Char.isDigit
        let rest3 := signedTail.2.dropWhile Char.isDigit
        if expDigits.isEmpty then some (mantissa, rest2)
        else
          let ev := digitsToNat expDigits
          some ((if signedTail.1 then mantissa / (10 : ℚ) ^ ev
                 else mantissa * (10 : ℚ) ^ ev), rest3)
      else some (mantissa, rest2)
    | [] => some (mantissa, [])

/-- Parse an optionally signed decimal-literal prefix. -/
def parseSignedDecimal (cs : List Char) : Option (ℚ × List Char) :=
  match cs with
  | '+' :: t => parseUnsignedDecimal t
  | '-' :: t => (parseUnsignedDecimal t).map (fun p => (-p.1, p.2))
  | _ => parseUnsignedDecimal cs

/-- JS `parseFloat`: skip leading whitespace, read the longest signed
decimal-literal prefix; `none` models `NaN` (no parsable prefix). -/
def jsParseFloat (s : String) : Option ℚ :=
  (parseSignedDecimal (s.toList.dropWhile isJsWhitespace)).map Prod.fst

/-- JS `String.prototype.trim`, as the character list that remains after
dropping whitespace from both ends. -/
def jsTrim (s : String) : List Char :=
  ((s.toList.dropWhile isJsWhitespace).reverse.dropWhile isJsWhitespace).reverse

/-- JS `Number(·)` on a string: trim whitespace on both ends; the empty
remainder converts to `0`; otherwise the whole remainder must be one
signed decimal literal; `none` models `NaN`. -/
def jsNumber (s : String) : Option ℚ :=
  let cs := jsTrim s
  if cs.isEmpty then some 0
  else
    match parseSignedDecimal cs with
    | some (q, []) => some q
    | _ => none

/-! ### Row types -/

/-- Row of the `tasks` collection.  `deadline` is `some` epoch-millisecond
value when the row carries a (well-formed) calendar date and `none` when
the field is absent or empty, matching the truthiness test the screen
applies to it. -/
structure Task where
  id : String
  title : String
  created_at : String
  completed : Bool
  deadline : Option Int
  category : Option String
deriving DecidableEq

/-- Direction of a budget item. -/
inductive BudgetType where
  | income
  | outcome
deriving DecidableEq

/-- Row of the `budget_items` collection; `amount` is `none` when the
stored JS number is `NaN`. -/
structure BudgetItem where
  id : String
  title : String
  amount : Option ℚ
  created_at : String
  type : BudgetType
  currency : String
deriving DecidableEq

/-! ### Days remaining until a deadline -/

/-- Embeds `getDaysRemaining`: `Math.ceil((deadline - now) / 86400000)`,
written as the integer ceiling division `-((now - deadline) / 86400000)`
(the divisor is positive, so `Int` division is a floor). -/
def getDaysRemaining (now deadline : Int) : Int :=
  -((-(deadline - now)) / 86400000)

/-! ### Task-list screen: derived sections -/

namespace TaskList

/-- One display section of a sectioned list. -/
structure TaskSection where
  title : String
  data : List Task
deriving DecidableEq

/-- `tasks.filter(task => !task.completed)`. -/
def ongoingTasks (tasks : List Task) : List Task :=
  tasks.filter (fun t => !t.completed)

/-- `tasks.filter(task => task.completed)`. -/
def completedTasks (tasks : List Task) : List Task :=
  tasks.filter (fun t => t.completed)

/-- Data of the Urgent section:
`ongoingTasks.filter(task => task.deadline && getDaysRemaining(task.deadline) <= 3)`. -/
def urgentData (now : Int) (tasks : List Task) : List Task :=
  (ongoingTasks tasks).filter (fun t =>
    match t.deadline with
    | some d => decide (getDaysRemaining now d ≤ 3)
    | none => false)

/-- Data of the Ongoing section:
`ongoingTasks.filter(task => !task.deadline || getDaysRemaining(task.deadline) > 3)`. -/
def ongoingData (now : Int) (tasks : List Task) : List Task :=
  (ongoingTasks tasks).filter (fun t =>
    match t.deadline with
    | some d => decide (3 < getDaysRemaining now d)
    | none => true)

/-- `taskSections` of the task-list screen: the fixed three-section list. -/
def taskSections (now : Int) (tasks : List Task) : List TaskSection :=
  [ { title := "Urgent", data := urgentData now tasks },
    { title := "Ongoing", data := ongoingData now tasks },
    { title := "Done", data := completedTasks tasks } ]

/-- Modelled from the spec: a task is Urgent when it is incomplete, has a
deadline, and at most 3 days remain. -/
def urgentSpec (now : Int) (t : Task) : Prop :=
  t.completed = false ∧ ∃ d, t.deadline = some d ∧ getDaysRemaining now d ≤ 3

/-- Modelled from the spec: a task is Ongoing when it is incomplete and not
Urgent (no deadline, or more than 3 days remain). -/
def ongoingSpec (now : Int) (t : Task) : Prop :=
  t.completed = false ∧ ∀ d, t.deadline = some d → 3 < getDaysRemaining now d

/-- Modelled from the spec: a task is Done exactly when it is completed. -/
def doneSpec (t : Task) : Prop :=
  t.completed = true

instance (now : Int) (t : Task) : Decidable (urgentSpec now t) := by
  unfold urgentSpec
  cases h : t.deadline <;> exact inferInstance

instance (now : Int) (t : Task) : Decidable (ongoingSpec now t) := by
  unfold ongoingSpec
  cases h : t.deadline
  · exact inferInstance
  · exact inferInstance

instance (t : Task) : Decidable (doneSpec t) := by
  unfold doneSpec
  exact inferInstance

/-- Remote rows plus the screen's local copy.  The remote list is kept in
the order the store would return it (`created_at` descending), so a fetch
is the identity read of `remote`. -/
structure SyncState where
  remote : List Task
  localTasks : List Task
deriving DecidableEq

/-- `fetchTasks`: a successful read replaces local state with the remote
rows; a failed read only logs and leaves local state unchanged. -/
def fetchTasks (fetchOk : Bool) (s : SyncState) : SyncState :=
  if fetchOk then { s with localTasks := s.remote } else s

/-- `toggleTaskCompletion(taskId, completed)`: sends
`update({ completed: !completed }).eq('id', taskId)`; on success re-fetches
the collection, on failure only logs. -/
def toggleTaskCompletion (taskId : String) (completed : Bool)
    (updateOk fetchOk : Bool) (s : SyncState) : SyncState :=
  if updateOk then
    fetchTasks fetchOk
      { s with remote := s.remote.map (fun t =>
          if t.id = taskId then { t with completed := !completed } else t) }
  else s

/-- `deleteTask(taskId)`: sends `delete().eq('id', taskId)`; on success
patches local state with `prev.filter(task => task.id !== taskId)` and does
not re-fetch; on failure only logs. -/
def deleteTask (taskId : String) (deleteOk : Bool) (s : SyncState) : SyncState :=
  if deleteOk then
    { remote := s.remote.filter (fun t => !(t.id == taskId)),
      localTasks := s.localTasks.filter (fun t => !(t.id == taskId)) }
  else s

end TaskList

/-! ### Budget screens: derived sections and local state -/

namespace BudgetScreen

/-- One display section of the budget list. -/
structure BudgetSection where
  title : String
  data : List BudgetItem
deriving DecidableEq

/-- `items.filter(item => item.type === 'income')`. -/
def incomeItems (items : List BudgetItem) : List BudgetItem :=
  items.filter (fun i => decide (i.type = BudgetType.income))

/-- `items.filter(item => item.type === 'outcome')`. -/
def outcomeItems (items : List BudgetItem) : List BudgetItem :=
  items.filter (fun i => decide (i.type = BudgetType.outcome))

/-- The two budget sections, Income first, then Outcome (`sections` of the
budget screen and `budgetSections` of the task-list screen). -/
def budgetSections (items : List BudgetItem) : List BudgetSection :=
  [ { title := "Income", data := incomeItems items },
    { title := "Outcome", data := outcomeItems items } ]

/-- Remote budget rows plus the budget screen's local copy. -/
structure SyncState where
  remote : List BudgetItem
  items : List BudgetItem
deriving DecidableEq

/-- `fetchBudgetItems`: a successful read replaces local state with the
remote rows; a failed read only logs. -/
def fetchBudgetItems (fetchOk : Bool) (s : SyncState) : SyncState :=
  if fetchOk then { s with items := s.remote } else s

/-- The flipped direction sent by `toggleItemType`. -/
def flipType (t : BudgetType) : BudgetType :=
  match t with
  | BudgetType.income => BudgetType.outcome
  | BudgetType.outcome => BudgetType.income

/-- `toggleItemType(id, currentType)`: sends a one-field update flipping
`type`; on success re-fetches the collection, on failure only logs. -/
def toggleItemType (id : String) (currentType : BudgetType)
    (updateOk fetchOk : Bool) (s : SyncState) : SyncState :=
  if updateOk then
    fetchBudgetItems fetchOk
      { s with remote := s.remote.map (fun i =>
          if i.id = id then { i with type := flipType currentType } else i) }
  else s

/-- `deleteItem(id)`: sends a delete by id; on success patches local state
with `prev.filter(item => item.id !== id)` and does not re-fetch. -/
def deleteItem (id : String) (deleteOk : Bool) (s : SyncState) : SyncState :=
  if deleteOk then
    { remote := s.remote.filter (fun i => !(i.id == id)),
      items := s.items.filter (fun i => !(i.id == id)) }
  else s

end BudgetScreen

/-! ### Signup screen: password validation -/

namespace SignupScreen

/-- Character class `[@$!%*?&]` of the password rule. -/
def isPasswordSpecial (c : Char) : Bool :=
  c = '@' || c = '$' || c = '!' || c = '%' || c = '*' || c = '?' || c = '&'

/-- Character class `[A-Za-z\d@$!%*?&]` of the password rule. -/
def isPasswordAllowed (c : Char) : Bool :=
  c.isLower || c.isUpper || c.isDigit || isPasswordSpecial c

/-- Embeds `validatePassword`: the regex
`^(?=.*[a-z])(?=.*[A-Z])(?=.*\d)(?=.*[@$!%*?&])[A-Za-z\d@$!%*?&]{10}$`
read as its conjunction of lookaheads plus the anchored ten-character body. -/
def validatePassword (password : String) : Bool :=
  let cs := password.toList
  cs.length == 10 && cs.all isPasswordAllowed
    && cs.any Char.isLower && cs.any Char.isUpper && cs.any Char.isDigit
    && cs.any isPasswordSpecial

end SignupScreen

/-! ### Create screens -/

/-- Outcome of a create handler.  `localError` is produced before any
network traffic (the handler returns without touching the store or the
session); `authError` follows the single user lookup when no user is
authenticated; `insert` follows the user lookup and carries the payload of
the single insert issued. -/
inductive CreateResult (π : Type) where
  | localError (msg : String)
  | authError (msg : String)
  | insert (payload : π)
deriving DecidableEq

namespace AddBudget

/-- Payload of the insert into `budget_items`. -/
structure BudgetInsert where
  title : String
  amount : Option ℚ
  type : BudgetType
  currency : String
  user_id : String
deriving DecidableEq

/-- Embeds `handleAddBudgetItem`: reject an empty-after-trim title, then an
empty or `Number`-NaN amount, both before any network call; otherwise
resolve the user and issue one insert whose amount is
`parseFloat(amount)`. -/
def handleAddBudgetItem (title amount : String) (ty : BudgetType)
    (currencyCode : String) (user : Option String) : CreateResult BudgetInsert :=
  if (jsTrim title).isEmpty then CreateResult.localError "Please enter a title"
  else if amount.toList.isEmpty || (jsNumber amount).isNone then
    CreateResult.localError "Please enter a valid amount"
  else
    match user with
    | none => CreateResult.authError "Not authenticated"
    | some uid => CreateResult.insert
        { title := title, amount := jsParseFloat amount, type := ty,
          currency := currencyCode, user_id := uid }

end AddBudget

namespace AddTask

/-- Payload of the insert into `tasks`. -/
structure TaskInsert where
  title : String
  category : Option String
  optional : Bool
  deadline : String
  user_id : String
deriving DecidableEq

/-- Embeds `handleAddTask`: reject an empty-after-trim title before any
network call; otherwise resolve the user and issue one insert
(`category || null` maps the empty string to `none`). -/
def handleAddTask (title category : String) (optionalFlag : Bool)
    (deadline : String) (user : Option String) : CreateResult TaskInsert :=
  if (jsTrim title).isEmpty then CreateResult.localError "Task title cannot be empty"
  else
    match user with
    | none => CreateResult.authError "Not authenticated"
    | some uid => CreateResult.insert
        { title := title,
          category := if category.toList.isEmpty then none else some category,
          optional := optionalFlag, deadline := deadline, user_id := uid }

end AddTask

/-! ### Remote store for the round trip -/

namespace Store

/-- Remote `budget_items` rows, kept newest-first as the ordered reads
return them; an insert adds the newly created row at the front. -/
def insertRow (store : List BudgetItem) (row : BudgetItem) : List BudgetItem :=
  row :: store

/-- `select * from budget_items order by created_at desc`. -/
def fetchBudgetItems (store : List BudgetItem) : List BudgetItem :=
  store

end Store

/-! ### Edit screens -/

/-- Observable effect of an edit screen's activation fetch. -/
structure EditActivation (α : Type) where
  errorMessageShown : Option String
  navBackDelayMs : Option Nat
  loadedItem : Option α
deriving DecidableEq

/-- Observable effect of an edit screen's Save action. -/
structure SaveEffect (π : Type) where
  payloadSent : Option π
  errorMessageShown : Option String
  successMessageShown : Option String
  navBackDelayMs : Option Nat
  navigatedNow : Bool
deriving DecidableEq

namespace EditBudgetScreen

/-- Embeds `fetchItem` of the edit screen colocated with the login screen:
one point read by id via `.single()` (which errors unless exactly one row
comes back, so `none` covers both a failed read and a missing row); on
error the screen shows a message and schedules `router.back()` after
1500 ms; on success it populates the form fields. -/
def fetchItem (result : Option BudgetItem) : EditActivation BudgetItem :=
  match result with
  | none =>
      { errorMessageShown := some "Failed to fetch item details",
        navBackDelayMs := some 1500, loadedItem := none }
  | some d =>
      { errorMessageShown := none, navBackDelayMs := none, loadedItem := some d }

/-- Payload of the partial update issued by this screen's Save. -/
structure BudgetUpdate where
  title : String
  amount : ℚ
  type : BudgetType
deriving DecidableEq

/-- Embeds `handleSave`: reject empty-after-trim title or amount, then a
`parseFloat`-NaN amount, both without sending anything; otherwise send one
partial update; on success show a transient success message and schedule
`router.back()` after 1000 ms; on failure show an error message and stay. -/
def handleSave (title amount : String) (ty : BudgetType) (updateOk : Bool) :
    SaveEffect BudgetUpdate :=
  if (jsTrim title).isEmpty || (jsTrim amount).isEmpty then
    { payloadSent := none, errorMessageShown := some "Please fill in all fields",
      successMessageShown := none, navBackDelayMs := none, navigatedNow := false }
  else
    match jsParseFloat amount with
    | none =>
        { payloadSent := none,
          errorMessageShown := some "Please enter a valid amount",
          successMessageShown := none, navBackDelayMs := none, navigatedNow := false }
    | some v =>
        if updateOk then
          { payloadSent := some { title := title, amount := v, type := ty },
            errorMessageShown := none,
            successMessageShown := some "Changes saved successfully",
            navBackDelayMs := some 1000, navigatedNow := false }
        else
          { payloadSent := some { title := title, amount := v, type := ty },
            errorMessageShown := some "Failed to update item",
            successMessageShown := none, navBackDelayMs := none, navigatedNow := false }

end EditBudgetScreen

namespace EditTask

/-- Embeds the activation fetch of the edit-task screen: one point read by
id via `.single()`; when it errors or returns nothing the screen keeps
`task = null`, rendering a static "Task not found" with no timer and no
navigation. -/
def fetchTask (result : Option Task) : EditActivation Task :=
  match result with
  | none =>
      { errorMessageShown := some "Task not found", navBackDelayMs := none,
        loadedItem := none }
  | some d =>
      { errorMessageShown := none, navBackDelayMs := none, loadedItem := some d }

/-- Payload of the partial update issued by the edit-task Save. -/
structure TaskUpdate where
  title : String
  completed : Bool
  category : String
deriving DecidableEq

/-- Embeds `handleSave` of the edit-task screen: no validation; when a task
is loaded it issues the update with the current fields and calls
`router.back()` immediately on success; a failure produces no message. -/
def handleSave (task : Option Task) (category : String) (updateOk : Bool) :
    SaveEffect TaskUpdate :=
  match task with
  | none =>
      { payloadSent := none, errorMessageShown := none, successMessageShown := none,
        navBackDelayMs := none, navigatedNow := false }
  | some t =>
      if updateOk then
        { payloadSent :=
            some { title := t.title, completed := t.completed, category := category },
          errorMessageShown := none, successMessageShown := none,
          navBackDelayMs := none, navigatedNow := true }
      else
        { payloadSent :=
            some { title := t.title, completed := t.completed, category := category },
          errorMessageShown := none, successMessageShown := none,
          navBackDelayMs := none, navigatedNow := false }

end EditTask

namespace EditBudgetItem

/-- Embeds the activation fetch of the screen at route `edit-budget/[id]`:
one point read by id via `.single()`; when it errors or returns nothing the
screen keeps `item = null`, rendering a static "Item not found" with no
timer and no navigation. -/
def fetchItem (result : Option BudgetItem) : EditActivation BudgetItem :=
  match result with
  | none =>
      { errorMessageShown := some "Item not found", navBackDelayMs := none,
        loadedItem := none }
  | some d =>
      { errorMessageShown := none, navBackDelayMs := none, loadedItem := some d }

/-- Payload of the update issued by this screen's Save. -/
structure ItemUpdate where
  title : String
  amount : Option ℚ
  type : BudgetType
  currency : String
deriving DecidableEq

/-- Embeds the amount field's `onChangeText`:
`const amount = parseFloat(text) || 0` — a falsy parse (NaN or zero)
becomes `0`, any other value is kept. -/
def amountFromText (text : String) : ℚ :=
  match jsParseFloat text with
  | none => 0
  | some q => if q = 0 then 0 else q

/-- Embeds `handleSave` of the screen at route `edit-budget/[id]`: no
validation; when an item is loaded it issues the update with the item's
current fields, navigating immediately via `router.replace` on success and
only logging on failure. -/
def handleSave (item : Option BudgetItem) (updateOk : Bool) : SaveEffect ItemUpdate :=
  match item with
  | none =>
      { payloadSent := none, errorMessageShown := none, successMessageShown := none,
        navBackDelayMs := none, navigatedNow := false }
  | some i =>
      if updateOk then
        { payloadSent :=
            some { title := i.title, amount := i.amount, type := i.type,
                   currency := i.currency },
          errorMessageShown := none, successMessageShown := none,
          navBackDelayMs := none, navigatedNow := true }
      else
        { payloadSent :=
            some { title := i.title, amount := i.amount, type := i.type,
                   currency := i.currency },
          errorMessageShown := none, successMessageShown := none,
          navBackDelayMs := none, navigatedNow := false }

end EditBudgetItem

/-! ### Concrete sample values used by witnesses -/

/-- Concrete outcome item used to instantiate C4. -/
def sampleOutcomeItem : BudgetItem :=
  { id := "b1", title := "Lunch", amount := some 5, created_at := "",
    type := BudgetType.outcome, currency := "USD" }

/-- Concrete task used to instantiate C3. -/
def sampleSyncTask : Task :=
  { id := "t1", title := "a", created_at := "", completed := false,
    deadline := none, category := none }

/-- Concrete list-screen state for the C3 witness. -/
def sampleTaskSync : TaskList.SyncState :=
  { remote := [sampleSyncTask], localTasks := [sampleSyncTask] }

/-- Concrete budget-screen state for the C3 witness. -/
def sampleBudgetSync : BudgetScreen.SyncState :=
  { remote := [], items := [] }

/-- Concrete task with an empty title used to instantiate C8. -/
def sampleEmptyTitleTask : Task :=
  { id := "t9", title := "", created_at := "", completed := false,
    deadline := none, category := none }

/-- Concrete stored row matching the C9 round-trip insert. -/
def sampleInsertedRow : BudgetItem :=
  { id := "b42", title := "Lunch", amount := some ((85 : ℚ) / 2),
    created_at := "2024-01-01T00:00:00Z", type := BudgetType.outcome,
    currency := "USD" }

/-! ## Theorems -/

/-- The integer ceiling division in `getDaysRemaining` is the mathematical
ceiling of `(deadline - now) / 86400000`. -/
theorem getDaysRemaining_eq_ceil (now d : Int) :
    getDaysRemaining now d = Int.ceil (((d - now : Int) : ℚ) / (86400000 : ℚ)) := by
  have h1 : (((d - now : Int) : ℚ) / (86400000 : ℚ))
      = -((((now - d : Int) : ℚ)) / (((86400000 : Nat) : ℚ))) := by
    push_cast
    ring
  rw [h1, Int.ceil_neg, Rat.floor_intCast_div_natCast]
  simp [getDaysRemaining, neg_sub]

namespace TaskList

theorem mem_urgentData (now : Int) (tasks : List Task) (t : Task) (ht : t ∈ tasks) :
    t ∈ urgentData now tasks ↔ urgentSpec now t := by
  simp only [urgentData, ongoingTasks, List.mem_filter, urgentSpec, ht, true_and,
    Bool.not_eq_true', and_congr_right_iff]
  intro hc
  cases hd : t.deadline with
  | none => simp
  | some d => simp [hd]

theorem mem_ongoingData (now : Int) (tasks : List Task) (t : Task) (ht : t ∈ tasks) :
    t ∈ ongoingData now tasks ↔ ongoingSpec now t := by
  simp only [ongoingData, ongoingTasks, List.mem_filter, ongoingSpec, ht, true_and,
    Bool.not_eq_true', and_congr_right_iff]
  intro hc
  cases hd : t.deadline with
  | none => simp
  | some d => simp [hd]

theorem mem_completedTasks (tasks : List Task) (t : Task) (ht : t ∈ tasks) :
    t ∈ completedTasks tasks ↔ doneSpec t := by
  simp [completedTasks, List.mem_filter, doneSpec, ht]

theorem taskSections_countP_one (now : Int) (tasks : List Task) (t : Task)
    (ht : t ∈ tasks) :
    (taskSections now tasks).countP (fun s => decide (t ∈ s.data)) = 1 := by
  have hu := mem_urgentData now tasks t ht
  have ho := mem_ongoingData now tasks t ht
  have hdn := mem_completedTasks tasks t ht
  simp only [taskSections, List.countP_cons, List.countP_nil]
  cases hc : t.completed with
  | true =>
    have h1 : ¬ t ∈ urgentData now tasks := by simp [hu, urgentSpec, hc]
    have h2 : ¬ t ∈ ongoingData now tasks := by simp [ho, ongoingSpec, hc]
    have h3 : t ∈ completedTasks tasks := by simp [hdn, doneSpec, hc]
    simp [h1, h2, h3]
  | false =>
    have h3 : ¬ t ∈ completedTasks tasks := by simp [hdn, doneSpec, hc]
    cases hd : t.deadline with
    | none =>
      have h1 : ¬ t ∈ urgentData now tasks := by simp [hu, urgentSpec, hd]
      have h2 : t ∈ ongoingData now tasks := by simp [ho, ongoingSpec, hc, hd]
      simp [h1, h2, h3]
    | some d =>
      by_cases hle : getDaysRemaining now d ≤ 3
      · have h1 : t ∈ urgentData now tasks := hu.mpr ⟨hc, d, hd, hle⟩
        have h2 : ¬ t ∈ ongoingData now tasks := by
          simp only [ho, ongoingSpec]
          intro h
          exact absurd (h.2 d hd) (by omega)
        simp [h1, h2, h3]
      · have h1 : ¬ t ∈ urgentData now tasks := by
          simp only [hu, urgentSpec, hd]
          rintro ⟨-, d2, hd2, hl⟩
          obtain rfl := Option.some.inj hd2
          omega
        have h2 : t ∈ ongoingData now tasks := by
          refine ho.mpr ⟨hc, ?_⟩
          intro d2 hd2
          rw [hd] at hd2
          obtain rfl := Option.some.inj hd2
          omega
        simp [h1, h2, h3]

end TaskList

namespace BudgetScreen

theorem mem_incomeItems (items : List BudgetItem) (i : BudgetItem) (hi : i ∈ items) :
    i ∈ incomeItems items ↔ i.type = BudgetType.income := by
  simp [incomeItems, List.mem_filter, hi]

theorem mem_outcomeItems (items : List BudgetItem) (i : BudgetItem) (hi : i ∈ items) :
    i ∈ outcomeItems items ↔ i.type = BudgetType.outcome := by
  simp [outcomeItems, List.mem_filter, hi]

theorem budgetSections_countP_one (items : List BudgetItem) (i : BudgetItem)
    (hi : i ∈ items) :
    (budgetSections items).countP (fun s => decide (i ∈ s.data)) = 1 := by
  have h1 := mem_incomeItems items i hi
  have h2 := mem_outcomeItems items i hi
  simp only [budgetSections, List.countP_cons, List.countP_nil]
  cases ht : i.type with
  | income =>
    have hin : i ∈ incomeItems items := h1.mpr ht
    have hout : ¬ i ∈ outcomeItems items := by simp [h2, ht]
    simp [hin, hout]
  | outcome =>
    have hin : ¬ i ∈ incomeItems items := by simp [h1, ht]
    have hout : i ∈ outcomeItems items := h2.mpr ht
    simp [hin, hout]

end BudgetScreen

/-- C1: the task-list screen derives exactly three sections, in fixed order
Urgent, Ongoing, Done, assigning every task to exactly one section: Urgent
iff incomplete with a deadline at most 3 days away (per `getDaysRemaining`),
Ongoing iff incomplete and not Urgent, Done iff completed; days remaining is
`ceil((deadline - now) / 1 day)`, and a past deadline (negative days
remaining) still lands the incomplete task in Urgent. -/
theorem C1_task_sectioning (now : Int) (tasks : List Task) :
    (TaskList.taskSections now tasks).map TaskList.TaskSection.title
        = ["Urgent", "Ongoing", "Done"]
    ∧ (TaskList.taskSections now tasks).map TaskList.TaskSection.data
        = [TaskList.urgentData now tasks, TaskList.ongoingData now tasks,
           TaskList.completedTasks tasks]
    ∧ (∀ t ∈ tasks,
        (t ∈ TaskList.urgentData now tasks ↔ TaskList.urgentSpec now t)
        ∧ (t ∈ TaskList.ongoingData now tasks ↔ TaskList.ongoingSpec now t)
        ∧ (t ∈ TaskList.completedTasks tasks ↔ TaskList.doneSpec t))
    ∧ (∀ t ∈ tasks,
        (TaskList.taskSections now tasks).countP (fun s => decide (t ∈ s.data)) = 1)
    ∧ (∀ d : Int, getDaysRemaining now d
        = Int.ceil (((d - now : Int) : ℚ) / (86400000 : ℚ)))
    ∧ (∀ t ∈ tasks, t.completed = false → ∀ d, t.deadline = some d → d < now →
        t ∈ TaskList.urgentData now tasks) := by
  refine ⟨rfl, rfl, ?_, ?_, ?_, ?_⟩
  · intro t ht
    exact ⟨TaskList.mem_urgentData now tasks t ht, TaskList.mem_ongoingData now tasks t ht,
      TaskList.mem_completedTasks tasks t ht⟩
  · intro t ht
    exact TaskList.taskSections_countP_one now tasks t ht
  · intro d
    exact getDaysRemaining_eq_ceil now d
  · intro t ht hc d hd hpast
    refine (TaskList.mem_urgentData now tasks t ht).mpr ⟨hc, d, hd, ?_⟩
    simp only [getDaysRemaining]
    omega

/-- Closed instance of C1: an incomplete task one day past its deadline is
placed in the Urgent section. -/
theorem C1_task_sectioning_witness :
    ({ id := "t1", title := "overdue", created_at := "", completed := false,
       deadline := some (-86400000), category := none } : Task)
      ∈ TaskList.urgentData 0
        [{ id := "t1", title := "overdue", created_at := "", completed := false,
           deadline := some (-86400000), category := none }] :=
  (C1_task_sectioning 0 _).2.2.2.2.2 _ (by simp) rfl (-86400000) rfl (by decide)

/-- C2: the signup password validator accepts a string iff it has exactly 10
characters, all drawn from letters, digits and the symbol set `@$!%*?&`,
with at least one lowercase, uppercase, digit and symbol; it rejects
`short1!` and rejects every string whose length is not 10, including
9- and 11-character strings containing all four classes. -/
theorem C2_password_rule :
    (∀ p : String, SignupScreen.validatePassword p = true ↔
      (p.toList.length = 10
        ∧ (∀ c ∈ p.toList, SignupScreen.isPasswordAllowed c = true)
        ∧ (∃ c ∈ p.toList, c.isLower = true)
        ∧ (∃ c ∈ p.toList, c.isUpper = true)
        ∧ (∃ c ∈ p.toList, c.isDigit = true)
        ∧ (∃ c ∈ p.toList, SignupScreen.isPasswordSpecial c = true)))
    ∧ SignupScreen.validatePassword "short1!" = false
    ∧ (∀ p : String, p.toList.length ≠ 10 → SignupScreen.validatePassword p = false)
    ∧ SignupScreen.validatePassword "Abcdef12!" = false
    ∧ SignupScreen.validatePassword "Abcdef1234!" = false
    ∧ SignupScreen.validatePassword "Abcdef123!" = true := by
  refine ⟨?_, by decide, ?_, by decide, by decide, by decide⟩
  · intro p
    simp [SignupScreen.validatePassword, List.all_eq_true, List.any_eq_true,
      and_assoc]
  · intro p hp
    rw [Bool.eq_false_iff]
    intro h
    simp only [SignupScreen.validatePassword, Bool.and_eq_true, beq_iff_eq] at h
    exact hp h.1.1.1.1.1

/-- Closed instance of C2: a 3-character string is rejected by the
length-must-be-10 consequence of the rule. -/
theorem C2_password_rule_witness :
    SignupScreen.validatePassword "ab1" = false :=
  C2_password_rule.2.2.1 "ab1" (by decide)

/-- C3: on every list screen a successful Delete patches local state by
removing exactly the rows with the given id (order preserved, no re-fetch:
the result is independent of the remote rows), a failed Delete changes
nothing; a successful Toggle sends a one-field partial update of the
matching row (all other fields and rows unchanged) and then re-fetches the
whole collection instead of patching locally, and a failed Toggle changes
nothing. -/
theorem C3_delete_patches_toggle_refetches (s : TaskList.SyncState)
    (b : BudgetScreen.SyncState) (k : String) :
    ((TaskList.deleteTask k true s).localTasks
        = s.localTasks.filter (fun t => decide (t.id ≠ k)))
    ∧ (∀ r2 : List Task,
        (TaskList.deleteTask k true { remote := r2, localTasks := s.localTasks }).localTasks
          = (TaskList.deleteTask k true s).localTasks)
    ∧ TaskList.deleteTask k false s = s
    ∧ (∀ (c : Bool) (fetchOk : Bool),
        (TaskList.toggleTaskCompletion k c true fetchOk s).remote.length
            = s.remote.length
        ∧ (∀ (i : Nat) (t : Task), s.remote[i]? = some t →
            ((t.id ≠ k →
              (TaskList.toggleTaskCompletion k c true fetchOk s).remote[i]? = some t)
            ∧ (t.id = k →
              (TaskList.toggleTaskCompletion k c true fetchOk s).remote[i]?
                = some { t with completed := !c })))
        ∧ (fetchOk = true →
            (TaskList.toggleTaskCompletion k c true fetchOk s).localTasks
              = (TaskList.toggleTaskCompletion k c true fetchOk s).remote)
        ∧ (fetchOk = false →
            (TaskList.toggleTaskCompletion k c true fetchOk s).localTasks
              = s.localTasks))
    ∧ (∀ c fetchOk, TaskList.toggleTaskCompletion k c false fetchOk s = s)
    ∧ ((BudgetScreen.deleteItem k true b).items
        = b.items.filter (fun i => decide (i.id ≠ k)))
    ∧ BudgetScreen.deleteItem k false b = b
    ∧ (∀ (ty : BudgetType) (fetchOk : Bool),
        (∀ (i : Nat) (t : BudgetItem), b.remote[i]? = some t →
            ((t.id ≠ k →
              (BudgetScreen.toggleItemType k ty true fetchOk b).remote[i]? = some t)
            ∧ (t.id = k →
              (BudgetScreen.toggleItemType k ty true fetchOk b).remote[i]?
                = some { t with type := BudgetScreen.flipType ty })))
        ∧ (fetchOk = true →
            (BudgetScreen.toggleItemType k ty true fetchOk b).items
              = (BudgetScreen.toggleItemType k ty true fetchOk b).remote)
        ∧ (fetchOk = false →
            (BudgetScreen.toggleItemType k ty true fetchOk b).items = b.items))
    ∧ (∀ ty fetchOk, BudgetScreen.toggleItemType k ty false fetchOk b = b) := by
  have hpred : ∀ t : Task, (!(t.id == k)) = decide (t.id ≠ k) := by
    intro t
    by_cases h : t.id = k <;> simp [h]
  have hpredB : ∀ i : BudgetItem, (!(i.id == k)) = decide (i.id ≠ k) := by
    intro i
    by_cases h : i.id = k <;> simp [h]
  refine ⟨?_, ?_, rfl, ?_, fun c fetchOk => rfl, ?_, rfl, ?_, fun ty fetchOk => rfl⟩
  · simp only [TaskList.deleteTask, if_true, hpred]
  · intro r2
    simp [TaskList.deleteTask]
  · intro c fetchOk
    have hrem : (TaskList.toggleTaskCompletion k c true fetchOk s).remote
        = s.remote.map (fun t => if t.id = k then { t with completed := !c } else t) := by
      cases fetchOk <;> rfl
    refine ⟨by rw [hrem]; simp, ?_, ?_, ?_⟩
    · intro i t ht
      rw [hrem, List.getElem?_map, ht]
      constructor
      · intro hne
        simp [hne]
      · intro heq
        simp [heq]
    · intro hfo
      subst hfo
      rfl
    · intro hfo
      subst hfo
      rfl
  · simp only [BudgetScreen.deleteItem, if_true, hpredB]
  · intro ty fetchOk
    have hrem : (BudgetScreen.toggleItemType k ty true fetchOk b).remote
        = b.remote.map (fun i =>
            if i.id = k then { i with type := BudgetScreen.flipType ty } else i) := by
      cases fetchOk <;> rfl
    refine ⟨?_, ?_, ?_⟩
    · intro i t ht
      rw [hrem, List.getElem?_map, ht]
      constructor
      · intro hne
        simp [hne]
      · intro heq
        simp [heq]
    · intro hfo
      subst hfo
      rfl
    · intro hfo
      subst hfo
      rfl

/-- Closed instance of C3: toggling the only task flips exactly its
completed field in the remote row read back at index 0. -/
theorem C3_delete_patches_toggle_refetches_witness :
    (TaskList.toggleTaskCompletion "t1" false true true sampleTaskSync).remote[0]?
      = some { sampleSyncTask with completed := true } := by
  exact (((C3_delete_patches_toggle_refetches sampleTaskSync sampleBudgetSync
    "t1").2.2.2.1 false true).2.1 0 sampleSyncTask rfl).2 rfl

/-- C4: the budget list derives exactly two sections, Income then Outcome,
every item landing in exactly the section matching its `type` field (strict
partition), and each section keeps the relative order of the fetched list. -/
theorem C4_budget_sectioning (items : List BudgetItem) :
    (BudgetScreen.budgetSections items).map BudgetScreen.BudgetSection.title
        = ["Income", "Outcome"]
    ∧ (BudgetScreen.budgetSections items).map BudgetScreen.BudgetSection.data
        = [BudgetScreen.incomeItems items, BudgetScreen.outcomeItems items]
    ∧ (∀ i ∈ items,
        (i ∈ BudgetScreen.incomeItems items ↔ i.type = BudgetType.income)
        ∧ (i ∈ BudgetScreen.outcomeItems items ↔ i.type = BudgetType.outcome))
    ∧ (∀ i ∈ items,
        (BudgetScreen.budgetSections items).countP (fun s => decide (i ∈ s.data)) = 1)
    ∧ (BudgetScreen.incomeItems items).Sublist items
    ∧ (BudgetScreen.outcomeItems items).Sublist items := by
  refine ⟨rfl, rfl, ?_, ?_, List.filter_sublist items, List.filter_sublist items⟩
  · intro i hi
    exact ⟨BudgetScreen.mem_incomeItems items i hi, BudgetScreen.mem_outcomeItems items i hi⟩
  · intro i hi
    exact BudgetScreen.budgetSections_countP_one items i hi

/-- Closed instance of C4: a concrete outcome item is counted in exactly one
section of its list. -/
theorem C4_budget_sectioning_witness :
    (BudgetScreen.budgetSections [sampleOutcomeItem]).countP
      (fun s => decide (sampleOutcomeItem ∈ s.data)) = 1 :=
  (C4_budget_sectioning _).2.2.2.1 _ (by simp)

/-- C5 counterexample: the amount text `-5` passes the add-budget screen's
validation (non-empty, `Number` not NaN) and the issued insert carries the
negative amount -5, so not every validated write stores a non-negative
amount. -/
theorem C5_nonnegative_amount_counterexample :
    AddBudget.handleAddBudgetItem "Groceries" "-5" BudgetType.outcome "USD" (some "u1")
      = CreateResult.insert
          { title := "Groceries", amount := some (-5 : ℚ),
            type := BudgetType.outcome, currency := "USD", user_id := "u1" }
    ∧ ¬ (0 : ℚ) ≤ (-5 : ℚ) := by
  constructor
  · simp [AddBudget.handleAddBudgetItem, jsNumber, jsTrim, jsParseFloat,
      parseSignedDecimal, parseUnsignedDecimal, digitsToNat, isJsWhitespace]
  · norm_num

/-- C5 amended: every budget-item write stores exactly the parsed amount —
a create passing validation inserts `parseFloat(amount)` and an edit-save
passing validation updates with the parsed value — so the stored amount is
non-negative exactly when the parsed input is; the sign is not checked by
any validation, direction living only in the `type` field. -/
theorem C5_amount_stored_as_parsed (title amount : String) (ty : BudgetType)
    (cur uid : String) (q : ℚ) :
    ((jsTrim title).isEmpty = false →
      (amount.toList.isEmpty || (jsNumber amount).isNone) = false →
      AddBudget.handleAddBudgetItem title amount ty cur (some uid)
        = CreateResult.insert
            { title := title, amount := jsParseFloat amount, type := ty,
              currency := cur, user_id := uid })
    ∧ ((jsTrim title).isEmpty = false → (jsTrim amount).isEmpty = false →
        jsParseFloat amount = some q → ∀ ok,
        (EditBudgetScreen.handleSave title amount ty ok).payloadSent
          = some { title := title, amount := q, type := ty })
    ∧ (jsParseFloat amount = some q → 0 ≤ q →
        ∀ p : AddBudget.BudgetInsert,
          AddBudget.handleAddBudgetItem title amount ty cur (some uid)
            = CreateResult.insert p → ∃ v, p.amount = some v ∧ 0 ≤ v) := by
  refine ⟨?_, ?_, ?_⟩
  · intro h1 h2
    unfold AddBudget.handleAddBudgetItem
    rw [if_neg (by rw [h1]; exact Bool.false_ne_true), if_neg (by rw [h2]; exact Bool.false_ne_true)]
  · intro h1 h2 hq ok
    cases ok <;> simp [EditBudgetScreen.handleSave, h1, h2, hq]
  · intro hq hq0 p hp
    unfold AddBudget.handleAddBudgetItem at hp
    by_cases h1 : (jsTrim title).isEmpty = true
    · rw [if_pos h1] at hp
      exact absurd hp (by simp)
    · rw [if_neg h1] at hp
      by_cases h2 : (amount.toList.isEmpty || (jsNumber amount).isNone) = true
      · rw [if_pos h2] at hp
        exact absurd hp (by simp)
      · rw [if_neg h2] at hp
        have hpay := CreateResult.insert.inj hp
        refine ⟨q, ?_, hq0⟩
        rw [← hpay]
        simp [hq]

/-- Closed instance of the amended C5: the validated input `10.5` is stored
as exactly the parsed amount. -/
theorem C5_amount_stored_as_parsed_witness :
    AddBudget.handleAddBudgetItem "Food" "10.5" BudgetType.income "USD" (some "u1")
      = CreateResult.insert
          { title := "Food", amount := jsParseFloat "10.5", type := BudgetType.income,
            currency := "USD", user_id := "u1" } := by
  exact (C5_amount_stored_as_parsed "Food" "10.5" BudgetType.income "USD" "u1" 0).1
    (by decide)
    (by simp [jsNumber, jsTrim, parseSignedDecimal, parseUnsignedDecimal,
      digitsToNat, isJsWhitespace])

/-- C6: on the create screens a failing local validation produces a local
error message and no network call at all — the outcome is the same for
every session user, so no user lookup happens and no insert is sent — while
a passing validation resolves the authenticated user and issues exactly one
insert carrying all the form fields plus the resolved user id. -/
theorem C6_create_validation (title amount : String) (ty : BudgetType)
    (cur uid : String) (tTitle tCategory tDeadline : String) (opt : Bool) :
    ((jsTrim title).isEmpty = true →
      ∀ u : Option String, AddBudget.handleAddBudgetItem title amount ty cur u
        = CreateResult.localError "Please enter a title")
    ∧ ((jsTrim title).isEmpty = false →
       (amount.toList.isEmpty || (jsNumber amount).isNone) = true →
      ∀ u : Option String, AddBudget.handleAddBudgetItem title amount ty cur u
        = CreateResult.localError "Please enter a valid amount")
    ∧ ((jsTrim title).isEmpty = false →
       (amount.toList.isEmpty || (jsNumber amount).isNone) = false →
        AddBudget.handleAddBudgetItem title amount ty cur (some uid)
          = CreateResult.insert
              { title := title, amount := jsParseFloat amount, type := ty,
                currency := cur, user_id := uid })
    ∧ ((jsTrim tTitle).isEmpty = true →
      ∀ u : Option String, AddTask.handleAddTask tTitle tCategory opt tDeadline u
        = CreateResult.localError "Task title cannot be empty")
    ∧ ((jsTrim tTitle).isEmpty = false →
        AddTask.handleAddTask tTitle tCategory opt tDeadline (some uid)
          = CreateResult.insert
              { title := tTitle,
                category := if tCategory.toList.isEmpty then none else some tCategory,
                optional := opt, deadline := tDeadline, user_id := uid }) := by
  refine ⟨?_, ?_, ?_, ?_, ?_⟩
  · intro h u
    unfold AddBudget.handleAddBudgetItem
    rw [if_pos h]
  · intro h1 h2 u
    unfold AddBudget.handleAddBudgetItem
    rw [if_neg (by simp [h1]), if_pos h2]
  · intro h1 h2
    unfold AddBudget.handleAddBudgetItem
    rw [if_neg (by rw [h1]; exact Bool.false_ne_true), if_neg (by rw [h2]; exact Bool.false_ne_true)]
  · intro h u
    unfold AddTask.handleAddTask
    rw [if_pos h]
  · intro h
    unfold AddTask.handleAddTask
    rw [if_neg (by simp [h])]

/-- Closed instance of C6: a whitespace-only title is rejected locally with
no network call, whatever the session holds. -/
theorem C6_create_validation_witness :
    AddBudget.handleAddBudgetItem "   " "5" BudgetType.income "USD" none
      = CreateResult.localError "Please enter a title" :=
  (C6_create_validation "   " "5" BudgetType.income "USD" "u1" "t" "" "" false).1
    (by decide) none

/-- C7 counterexample: on the edit screen at route `edit-budget/[id]` a
failed point read (for instance a non-existent id) schedules no back
navigation at all — it renders a static message — contradicting the claimed
1.5-second automatic back-navigation for every edit screen. -/
theorem C7_edit_fetch_counterexample :
    (EditBudgetItem.fetchItem none).navBackDelayMs = none
    ∧ (EditBudgetItem.fetchItem none).errorMessageShown = some "Item not found" :=
  ⟨rfl, rfl⟩

/-- C7 amended: each edit screen issues one point read by id on activation;
only the edit screen colocated with the login screen reacts to a failed or
empty read with a transient error message plus back-navigation scheduled
after 1500 ms; the edit-task screen and the screen at `edit-budget/[id]`
instead render a static not-found message and never navigate
automatically. No failure path escapes as an exception. -/
theorem C7_edit_fetch_error (row : BudgetItem) (trow : Task) :
    EditBudgetScreen.fetchItem none
      = { errorMessageShown := some "Failed to fetch item details",
          navBackDelayMs := some 1500, loadedItem := none }
    ∧ EditBudgetScreen.fetchItem (some row)
      = { errorMessageShown := none, navBackDelayMs := none, loadedItem := some row }
    ∧ EditTask.fetchTask none
      = { errorMessageShown := some "Task not found", navBackDelayMs := none,
          loadedItem := none }
    ∧ EditTask.fetchTask (some trow)
      = { errorMessageShown := none, navBackDelayMs := none, loadedItem := some trow }
    ∧ EditBudgetItem.fetchItem none
      = { errorMessageShown := some "Item not found", navBackDelayMs := none,
          loadedItem := none }
    ∧ EditBudgetItem.fetchItem (some row)
      = { errorMessageShown := none, navBackDelayMs := none, loadedItem := some row } :=
  ⟨rfl, rfl, rfl, rfl, rfl, rfl⟩

/-- C8 counterexample: the edit-task Save issues the update even when the
loaded task has an empty title (no validation runs), shows no message, and
navigates back immediately rather than after a one-second delay. -/
theorem C8_edit_save_counterexample :
    EditTask.handleSave (some sampleEmptyTitleTask) "Work" true
      = { payloadSent := some { title := "", completed := false, category := "Work" },
          errorMessageShown := none, successMessageShown := none,
          navBackDelayMs := none, navigatedNow := true } :=
  rfl

/-- C8 amended: only the edit screen colocated with the login screen
validates its Save (non-empty title and amount, numeric amount), issues one
partial update, shows a transient success message and navigates back after
1000 ms on success, or shows an error and stays editable on failure; the
edit-task screen and the screen at `edit-budget/[id]` save without any
validation, navigate immediately on success, and surface nothing on
failure. -/
theorem C8_edit_save (title amount : String) (ty : BudgetType) (q : ℚ)
    (t : Task) (cat : String) (item : BudgetItem) :
    (((jsTrim title).isEmpty || (jsTrim amount).isEmpty) = true → ∀ ok,
      EditBudgetScreen.handleSave title amount ty ok
        = { payloadSent := none,
            errorMessageShown := some "Please fill in all fields",
            successMessageShown := none, navBackDelayMs := none,
            navigatedNow := false })
    ∧ (((jsTrim title).isEmpty || (jsTrim amount).isEmpty) = false →
        jsParseFloat amount = none → ∀ ok,
      EditBudgetScreen.handleSave title amount ty ok
        = { payloadSent := none,
            errorMessageShown := some "Please enter a valid amount",
            successMessageShown := none, navBackDelayMs := none,
            navigatedNow := false })
    ∧ (((jsTrim title).isEmpty || (jsTrim amount).isEmpty) = false →
        jsParseFloat amount = some q →
      EditBudgetScreen.handleSave title amount ty true
        = { payloadSent := some { title := title, amount := q, type := ty },
            errorMessageShown := none,
            successMessageShown := some "Changes saved successfully",
            navBackDelayMs := some 1000, navigatedNow := false }
      ∧ EditBudgetScreen.handleSave title amount ty false
        = { payloadSent := some { title := title, amount := q, type := ty },
            errorMessageShown := some "Failed to update item",
            successMessageShown := none, navBackDelayMs := none,
            navigatedNow := false })
    ∧ (EditTask.handleSave (some t) cat true
        = { payloadSent :=
              some { title := t.title, completed := t.completed, category := cat },
            errorMessageShown := none, successMessageShown := none,
            navBackDelayMs := none, navigatedNow := true }
      ∧ EditTask.handleSave (some t) cat false
        = { payloadSent :=
              some { title := t.title, completed := t.completed, category := cat },
            errorMessageShown := none, successMessageShown := none,
            navBackDelayMs := none, navigatedNow := false })
    ∧ (EditBudgetItem.handleSave (some item) true
        = { payloadSent :=
              some { title := item.title, amount := item.amount, type := item.type,
                     currency := item.currency },
            errorMessageShown := none, successMessageShown := none,
            navBackDelayMs := none, navigatedNow := true }
      ∧ EditBudgetItem.handleSave (some item) false
        = { payloadSent :=
              some { title := item.title, amount := item.amount, type := item.type,
                     currency := item.currency },
            errorMessageShown := none, successMessageShown := none,
            navBackDelayMs := none, navigatedNow := false }) := by
  refine ⟨?_, ?_, ?_, ⟨rfl, rfl⟩, ⟨rfl, rfl⟩⟩
  · intro h ok
    simp [EditBudgetScreen.handleSave, h]
  · intro h hn ok
    simp [EditBudgetScreen.handleSave, h, hn]
  · intro h hq
    constructor <;> simp [EditBudgetScreen.handleSave, h, hq]

/-- Closed instance of the amended C8: a valid edit-save shows the success
message and schedules back-navigation after one second. -/
theorem C8_edit_save_witness :
    EditBudgetScreen.handleSave "Rent" "100" BudgetType.outcome true
      = { payloadSent :=
            some { title := "Rent", amount := 100, type := BudgetType.outcome },
          errorMessageShown := none,
          successMessageShown := some "Changes saved successfully",
          navBackDelayMs := some 1000, navigatedNow := false } := by
  exact ((C8_edit_save "Rent" "100" BudgetType.outcome 100 sampleEmptyTitleTask ""
    sampleOutcomeItem).2.2.1 (by decide)
    (by simp [jsParseFloat, parseSignedDecimal, parseUnsignedDecimal, digitsToNat,
      isJsWhitespace])).1

/-- C9: creating a budget item from amount text `42.50` with type outcome
inserts amount 42.5 (the value `parseFloat` yields) and type outcome, and
reading the stored row back from the store yields amount 42.5 and type
outcome unchanged. -/
theorem C9_roundtrip :
    AddBudget.handleAddBudgetItem "Lunch" "42.50" BudgetType.outcome "USD" (some "u1")
      = CreateResult.insert
          { title := "Lunch", amount := some ((85 : ℚ) / 2),
            type := BudgetType.outcome, currency := "USD", user_id := "u1" }
    ∧ (42.5 : ℚ) = (85 : ℚ) / 2
    ∧ (∀ store : List BudgetItem,
        (Store.fetchBudgetItems (Store.insertRow store sampleInsertedRow))[0]?
          = some sampleInsertedRow)
    ∧ sampleInsertedRow.amount = some ((85 : ℚ) / 2)
    ∧ sampleInsertedRow.type = BudgetType.outcome := by
  refine ⟨?_, by norm_num,
    fun store => by simp [Store.fetchBudgetItems, Store.insertRow], rfl, rfl⟩
  simp [AddBudget.handleAddBudgetItem, jsNumber, jsTrim, jsParseFloat,
    parseSignedDecimal, parseUnsignedDecimal, digitsToNat, isJsWhitespace]
  norm_num

/-- C10: in the screen at route `edit-budget/[id]` the amount text becomes
`parseFloat(t)` when that value is a truthy (non-NaN, non-zero) number and
0 otherwise — every non-numeric text silently yields 0 — and Save issues
the update with the item's current amount unconditionally, with no
validation step that can reject it. -/
theorem C10_editbudget_amount_coercion (text : String) (item : BudgetItem)
    (ok : Bool) :
    (jsParseFloat text = none → EditBudgetItem.amountFromText text = 0)
    ∧ (∀ q : ℚ, jsParseFloat text = some q → q ≠ 0 →
        EditBudgetItem.amountFromText text = q)
    ∧ (jsParseFloat text = some 0 → EditBudgetItem.amountFromText text = 0)
    ∧ EditBudgetItem.amountFromText "abc" = 0
    ∧ (EditBudgetItem.handleSave (some item) ok).payloadSent
        = some { title := item.title, amount := item.amount, type := item.type,
                 currency := item.currency }
    ∧ (EditBudgetItem.handleSave
          (some { item with amount := some (EditBudgetItem.amountFromText text) })
          ok).payloadSent
        = some { title := item.title,
                 amount := some (EditBudgetItem.amountFromText text),
                 type := item.type, currency := item.currency } := by
  refine ⟨?_, ?_, ?_, ?_, ?_, ?_⟩
  · intro h
    simp [EditBudgetItem.amountFromText, h]
  · intro q hq hq0
    simp [EditBudgetItem.amountFromText, hq, hq0]
  · intro h
    simp [EditBudgetItem.amountFromText, h]
  · simp [EditBudgetItem.amountFromText, jsParseFloat, parseSignedDecimal,
      parseUnsignedDecimal, digitsToNat, isJsWhitespace]
  · cases ok <;> rfl
  · cases ok <;> rfl

/-- Closed instance of C10: the non-numeric amount text `xyz` is silently
coerced to 0. -/
theorem C10_editbudget_amount_coercion_witness :
    EditBudgetItem.amountFromText "xyz" = 0 := by
  exact (C10_editbudget_amount_coercion "xyz" sampleOutcomeItem true).1
    (by simp [jsParseFloat, parseSignedDecimal, parseUnsignedDecimal, digitsToNat,
      isJsWhitespace])

end App
